import Mathlib

/-!
Shallow embedding of the logging-rs crate (src/lib.rs) in Lean 4.

The embedding models the template formatter (Formatter::format), the
multi-sink dispatch loop (Logger::log), and the pieces of external
behavior the claims depend on (Rust str::replace, the chrono strftime
panic behavior).  Strings are Lean String values; the timestamp produced
by the wall clock is passed in as an explicit oracle argument, so that
the otherwise pure formatter stays a pure function.
-/

/-- Log levels, from the Level enum of src/lib.rs. -/
inductive Level where
  | DEBUG
  | INFO
  | WARN
  | ERROR
  | FATAL
  | MESSAGE
deriving DecidableEq

/-- Output sinks, from the Output enum of src/lib.rs.  FILE carries the
file path. -/
inductive Output where
  | STDOUT
  | STDERR
  | FILE (path : String)
deriving DecidableEq

/-- The left curly brace character. -/
def lbrace : Char := Char.ofNat 123

/-- The right curly brace character. -/
def rbrace : Char := Char.ofNat 125

/-- Scanner for Rust str::replace on character lists: scan left to right;
with skip = 0, when the pattern is a prefix of the remaining input, emit
the replacement and skip the rest of the match (non-overlapping);
otherwise copy one character.  A positive skip consumes characters that
belong to an already-replaced match. -/
def replaceAllGo (pat rep : List Char) : Nat → List Char → List Char
  | _, [] => []
  | Nat.succ skip, _ :: rest => replaceAllGo pat rep skip rest
  | 0, c :: rest =>
    if pat.isPrefixOf (c :: rest) then
      rep ++ replaceAllGo pat rep (pat.length - 1) rest
    else
      c :: replaceAllGo pat rep 0 rest

/-- Embedding of Rust str::replace (all non-overlapping occurrences,
left to right).  Every pattern used by the formatter is a placeholder
token of the shape \x7b\x7bkey\x7d\x7d and hence nonempty, so the guard
for the empty pattern is never exercised. -/
def strReplace (s pat rep : String) : String :=
  if pat.data = [] then s else ⟨replaceAllGo pat.data rep.data 0 s.data⟩

/-- The fixed color and style palette, from the colors vector in
Formatter::format (src/lib.rs lines 198-245), in source order with the
exact ANSI escape values. -/
def colors : List (String × String) := [
  ("end", "\x1b[0m"),
  ("bold", "\x1b[1m"),
  ("italic", "\x1b[3m"),
  ("underline", "\x1b[4m"),
  ("overline", "\x1b[53m"),
  ("color.black", "\x1b[30m"),
  ("color.red", "\x1b[31m"),
  ("color.green", "\x1b[32m"),
  ("color.yellow", "\x1b[33m"),
  ("color.blue", "\x1b[34m"),
  ("color.magenta", "\x1b[35m"),
  ("color.cyan", "\x1b[36m"),
  ("color.white", "\x1b[37m"),
  ("color.bright_black", "\x1b[90m"),
  ("color.bright_red", "\x1b[91m"),
  ("color.bright_green", "\x1b[92m"),
  ("color.bright_yellow", "\x1b[93m"),
  ("color.bright_blue", "\x1b[94m"),
  ("color.bright_magenta", "\x1b[95m"),
  ("color.bright_cyan", "\x1b[96m"),
  ("color.bright_white", "\x1b[97m"),
  ("back.black", "\x1b[40m"),
  ("back.red", "\x1b[41m"),
  ("back.green", "\x1b[42m"),
  ("back.yellow", "\x1b[43m"),
  ("back.blue", "\x1b[44m"),
  ("back.magenta", "\x1b[45m"),
  ("back.cyan", "\x1b[46m"),
  ("back.white", "\x1b[47m"),
  ("back.bright_black", "\x1b[100m"),
  ("back.bright_red", "\x1b[101m"),
  ("back.bright_green", "\x1b[102m"),
  ("back.bright_yellow", "\x1b[103m"),
  ("back.bright_blue", "\x1b[104m"),
  ("back.bright_magenta", "\x1b[105m"),
  ("back.bright_cyan", "\x1b[106m"),
  ("back.bright_white", "\x1b[107m")]

/-- Plain level label, from the level_string match in Formatter::format
(src/lib.rs lines 247-254). -/
def levelString : Level → String
  | Level.DEBUG => "DEBUG"
  | Level.INFO => "INFO"
  | Level.WARN => "WARNING"
  | Level.ERROR => "ERROR"
  | Level.FATAL => "FATAL"
  | Level.MESSAGE => "MESSAGE"

/-- Colored level label, from the colored_level_string match in
Formatter::format (src/lib.rs lines 255-262).  The labels are wrapped in
color placeholder tokens that the later palette pass expands. -/
def coloredLevelString : Level → String
  | Level.DEBUG => "DEBUG"
  | Level.INFO => "\x7b\x7bcolor.blue\x7d\x7dINFO\x7b\x7bend\x7d\x7d"
  | Level.WARN => "\x7b\x7bcolor.yellow\x7d\x7dWARNING\x7b\x7bend\x7d\x7d"
  | Level.ERROR => "\x7b\x7bcolor.red\x7d\x7dERROR\x7b\x7bend\x7d\x7d"
  | Level.FATAL => "\x7b\x7bcolor.red\x7d\x7dFATAL\x7b\x7bend\x7d\x7d"
  | Level.MESSAGE => "\x7b\x7bcolor.blue\x7d\x7dMESSAGE\x7b\x7bend\x7d\x7d"

/-- Whether an output is a console sink, i.e. matches the
STDOUT | STDERR arm of the match in Formatter::format (lines 268-277). -/
def consoleOutput : Output → Bool
  | Output.STDOUT => true
  | Output.STDERR => true
  | Output.FILE _ => false

/-- Formatter struct, from src/lib.rs lines 113-121. -/
structure Formatter where
  color_format_string : String
  format_string : String
  timestamp_format : String
deriving DecidableEq

/-- Formatter::new (src/lib.rs line 156). -/
def Formatter.new (color_format_string format_string timestamp_format : String) : Formatter :=
  ⟨color_format_string, format_string, timestamp_format⟩

/-- Default Formatter (src/lib.rs lines 123-127). -/
def Formatter.default : Formatter :=
  Formatter.new
    "[\x7b\x7bcolor.bright_blue\x7d\x7d\x7b\x7btimestamp\x7d\x7d\x7b\x7bend\x7d\x7d] [\x7b\x7blevel\x7d\x7d] \x7b\x7bpath\x7d\x7d: \x7b\x7bmessage\x7d\x7d"
    "[\x7b\x7btimestamp\x7d\x7d] [\x7b\x7blevel\x7d\x7d] \x7b\x7bpath\x7d\x7d: \x7b\x7bmessage\x7d\x7d"
    "%Y-%m-%d %H:%M:%S"

/-- The substitution table built by Formatter::format (src/lib.rs lines
264-279), in push order: message, timestamp, the extra arguments in
caller order, the level entry (colored for console sinks, plain
otherwise), then the color palette.  The timestamp value is the oracle
string the wall clock rendered. -/
def Formatter.argumentsList (output : Output) (level : Level) (message timestamp : String)
    (extraArguments : List (String × String)) : List (String × String) :=
  (([("message", message), ("timestamp", timestamp)] ++ extraArguments) ++
    [("level", if consoleOutput output then coloredLevelString level else levelString level)]) ++
    colors

/-- The placeholder token for a table key: the key wrapped in double
curly braces, as built on src/lib.rs line 282. -/
def tokenOf (key : String) : String := "\x7b\x7b" ++ key ++ "\x7d\x7d"

/-- One iteration of the replacement loop of Formatter::format
(src/lib.rs lines 281-283): replace every occurrence of the token of
the key by the value. -/
def substStep (result : String) (kv : String × String) : String :=
  strReplace result (tokenOf kv.1) kv.2

/-- Formatter::format (src/lib.rs lines 196-286): choose the color
template for console sinks and the plain template otherwise, then apply
str::replace once per table entry, sequentially in table order, each
pass replacing every occurrence of the token of the key by the value.
The rendered timestamp is passed as an explicit argument. -/
def Formatter.format (f : Formatter) (output : Output) (level : Level) (message : String)
    (extraArguments : List (String × String)) (timestamp : String) : String :=
  (Formatter.argumentsList output level message timestamp extraArguments).foldl
    substStep
    (if consoleOutput output then f.color_format_string else f.format_string)

/-- Logger struct, from src/lib.rs lines 316-320. -/
structure Logger where
  formatter : Formatter
  writable_list : List Output
deriving DecidableEq

/-- Logger::new (src/lib.rs line 350). -/
def Logger.new (formatter : Formatter) (writable_list : List Output) : Logger :=
  ⟨formatter, writable_list⟩

/-- Default Logger (src/lib.rs lines 322-326). -/
def Logger.default : Logger :=
  Logger.new Formatter.default [Output.STDOUT]

/-- Observable I/O effects of one Logger::log call.  stdout and stderr
carry the exact bytes written to the stream (println! and eprintln!
append a newline, so the payload carries it); fileAppend carries the
bytes appended to the file at the path (write! adds no newline). -/
inductive Effect where
  | stdout (text : String)
  | stderr (text : String)
  | fileAppend (path : String) (text : String)
deriving DecidableEq

/-- The sink loop of Logger::log (src/lib.rs lines 396-415).  openOk
says whether opening the file at a path in create-and-append mode
succeeds.  Returns the effects performed in order, paired with true when
the loop ran to completion.  When a file open fails the Rust code
evaluates file.as_ref().unwrap() inside the write! call (line 404),
which panics before the error branch below it can run, so the loop stops
with no further effects: this is the (effects, false) case.  Writes to a
successfully opened file are modelled as succeeding. -/
def Logger.logRun (l : Logger) (message : String) (level : Level)
    (arguments : List (String × String)) (timestamp : String)
    (openOk : String → Bool) : List Output → List Effect × Bool
  | [] => ([], true)
  | writable :: rest =>
    let formatted := l.formatter.format writable level message arguments timestamp
    match writable with
    | Output.STDOUT =>
      let r := Logger.logRun l message level arguments timestamp openOk rest
      (Effect.stdout (formatted ++ "\n") :: r.1, r.2)
    | Output.STDERR =>
      let r := Logger.logRun l message level arguments timestamp openOk rest
      (Effect.stderr (formatted ++ "\n") :: r.1, r.2)
    | Output.FILE path =>
      if openOk path then
        let r := Logger.logRun l message level arguments timestamp openOk rest
        (Effect.fileAppend path formatted :: r.1, r.2)
      else
        ([], false)

/-- Logger::log (src/lib.rs lines 394-416): push the pair of the key
path and the caller path after the caller-supplied arguments, then run
the sink loop over writable_list. -/
def Logger.log (l : Logger) (message : String) (level : Level) (path : String)
    (arguments : List (String × String)) (timestamp : String)
    (openOk : String → Bool) : List Effect × Bool :=
  Logger.logRun l message level (arguments ++ [("path", path)]) timestamp openOk l.writable_list

/-- File system contents: text currently stored at each path, the empty
string when the file does not exist (create-if-missing append makes the
two indistinguishable for this model). -/
def FileSystem : Type := String → String

/-- The empty file system. -/
def FileSystem.empty : FileSystem := fun _ => ""

/-- Apply one effect to the file system: a file append concatenates the
text onto the current content, console effects leave files unchanged. -/
def FileSystem.applyEffect (fs : FileSystem) : Effect → FileSystem
  | Effect.fileAppend path text => fun q => if q = path then fs q ++ text else fs q
  | _ => fs

/-- Apply a list of effects to the file system, in order. -/
def FileSystem.applyEffects (fs : FileSystem) (effects : List Effect) : FileSystem :=
  effects.foldl FileSystem.applyEffect fs

/-- Specifier characters accepted after a percent sign by the strftime
parser of the chrono crate (external dependency of the repository). -/
def strftimeSpecChars : List Char :=
  ['Y', 'C', 'y', 'G', 'g', 'U', 'W', 'V', 'j', 'D', 'x', 'F', 'v',
   'm', 'b', 'B', 'h', 'd', 'e', 'a', 'A', 'w', 'u', 'H', 'k', 'I',
   'l', 'P', 'p', 'M', 'S', 'f', 'R', 'T', 'X', 'r', 'Z', 'z', 'c',
   's', 't', 'n', '%', '+']

/-- Modelled from the chrono dependency (not part of this repository):
whether chrono accepts a strftime pattern.  chrono parses a percent sign
followed by an optional padding modifier (minus, underscore or zero) and
a specifier character, the fraction forms dot-f, dot-3f, dot-6f, dot-9f,
3f, 6f, 9f, and the timezone colon forms colon-z, colon-colon-z,
colon-colon-colon-z; any other character after a percent sign, or a
trailing percent sign, yields an error item. -/
def strftimeValid : List Char → Bool
  | [] => true
  | c :: rest =>
    if c = '%' then
      match rest with
      | [] => false
      | d :: rest2 =>
        if strftimeSpecChars.contains d then strftimeValid rest2
        else if d = '-' ∨ d = '_' ∨ d = '0' then
          match rest2 with
          | [] => false
          | e :: rest3 => strftimeSpecChars.contains e && strftimeValid rest3
        else if d = '.' then
          match rest2 with
          | 'f' :: rest3 => strftimeValid rest3
          | '3' :: 'f' :: rest3 => strftimeValid rest3
          | '6' :: 'f' :: rest3 => strftimeValid rest3
          | '9' :: 'f' :: rest3 => strftimeValid rest3
          | _ => false
        else if d = '3' ∨ d = '6' ∨ d = '9' then
          match rest2 with
          | 'f' :: rest3 => strftimeValid rest3
          | _ => false
        else if d = ':' then
          match rest2 with
          | 'z' :: rest3 => strftimeValid rest3
          | ':' :: 'z' :: rest3 => strftimeValid rest3
          | ':' :: ':' :: 'z' :: rest3 => strftimeValid rest3
          | _ => false
        else false
    else strftimeValid rest

/-- Modelled from the chrono dependency (not part of this repository):
the result of chrono Local::now().format(pattern).to_string() as called
on src/lib.rs line 265.  The calendar text the clock renders is taken as
an oracle argument; when the pattern is invalid, the Display
implementation of DelayedFormat reports an error and the blanket
to_string panics, which the model expresses as none. -/
def renderTimestamp (pattern : String) (clock : String) : Option String :=
  if strftimeValid pattern.data then some clock else none

/-- Formatter::format including the timestamp computation of src/lib.rs
line 265: the rendered timestamp is produced by chrono from the
timestamp_format pattern, so an invalid pattern panics (none) before any
substitution happens. -/
def Formatter.formatChecked (f : Formatter) (output : Output) (level : Level) (message : String)
    (extraArguments : List (String × String)) (clock : String) : Option String :=
  (renderTimestamp f.timestamp_format clock).map
    (fun timestamp => f.format output level message extraArguments timestamp)

/-- A segment a blocks the scanner for pattern pat when every nonempty
suffix of a disagrees with pat at some position inside the suffix, so no
match of pat can start inside a, not even one that would continue past
the end of a. -/
def scanBlocked (pat a : List Char) : Bool :=
  a.tails.all (fun y => y.isEmpty || (!(pat.isPrefixOf y) && !(y.isPrefixOf pat)))

/-- Whether a string contains no left curly brace, so that no
placeholder token can begin inside it. -/
def lbraceFree (s : String) : Bool :=
  s.data.all (fun c => c != lbrace)

/-- Written from the spec, for comparison with the code: the plain level
display labels of section 6 of the spec (DEBUG, INFO, WARNING, ERROR,
FATAL, MESSAGE). -/
def specPlainLabel : Level → String
  | Level.DEBUG => "DEBUG"
  | Level.INFO => "INFO"
  | Level.WARN => "WARNING"
  | Level.ERROR => "ERROR"
  | Level.FATAL => "FATAL"
  | Level.MESSAGE => "MESSAGE"

/-- Written from the spec, for comparison with the code: the colored
console labels of section 6 of the spec after the palette pass renders
them (DEBUG unstyled, INFO and MESSAGE wrapped in blue, WARNING in
yellow, ERROR and FATAL in red, each closed with the reset sequence). -/
def specConsoleLabel : Level → String
  | Level.DEBUG => "DEBUG"
  | Level.INFO => "\x1b[34mINFO\x1b[0m"
  | Level.WARN => "\x1b[33mWARNING\x1b[0m"
  | Level.ERROR => "\x1b[31mERROR\x1b[0m"
  | Level.FATAL => "\x1b[31mFATAL\x1b[0m"
  | Level.MESSAGE => "\x1b[34mMESSAGE\x1b[0m"

theorem isPrefixOf_append_eq_false :
    ∀ (pat y : List Char), y ≠ [] → pat.isPrefixOf y = false → y.isPrefixOf pat = false →
      ∀ b : List Char, pat.isPrefixOf (y ++ b) = false
  | [], _, _, h1, _, _ => by simp [List.isPrefixOf] at h1
  | _ :: _, [], hy, _, _, _ => absurd rfl hy
  | p :: ps, c :: cs, _, h1, h2, b => by
    by_cases hpc : p = c
    · subst hpc
      simp only [List.isPrefixOf, BEq.refl, Bool.true_and] at h1 h2
      cases cs with
      | nil => simp [List.isPrefixOf] at h2
      | cons d ds =>
        simp only [List.cons_append, List.isPrefixOf, BEq.refl, Bool.true_and]
        exact isPrefixOf_append_eq_false ps (d :: ds) (by simp) h1 h2 b
    · simp only [List.cons_append, List.isPrefixOf]
      simp [beq_eq_false_iff_ne.mpr hpc]

theorem scanBlocked_cons {pat : List Char} {c : Char} {a : List Char}
    (h : scanBlocked pat (c :: a) = true) :
    (pat.isPrefixOf (c :: a) = false ∧ (c :: a).isPrefixOf pat = false) ∧
      scanBlocked pat a = true := by
  simp only [scanBlocked, List.tails_cons, List.all_cons, Bool.and_eq_true] at h
  refine ⟨?_, h.2⟩
  rcases h.1 with h1
  simp only [List.isEmpty_cons, Bool.false_or, Bool.and_eq_true, Bool.not_eq_true'] at h1
  exact h1

theorem go_glide (pat rep : List Char) :
    ∀ (a b : List Char), scanBlocked pat a = true →
      replaceAllGo pat rep 0 (a ++ b) = a ++ replaceAllGo pat rep 0 b
  | [], _, _ => rfl
  | c :: a, b, h => by
    obtain ⟨⟨h1, h2⟩, ha⟩ := scanBlocked_cons h
    have hfalse : pat.isPrefixOf ((c :: a) ++ b) = false :=
      isPrefixOf_append_eq_false pat (c :: a) (by simp) h1 h2 b
    simp only [List.cons_append] at hfalse ⊢
    simp only [replaceAllGo, hfalse, Bool.false_eq_true, if_false, List.cons.injEq, true_and]
    exact go_glide pat rep a b ha

/-- No match of pat starts inside a blocking segment: with nothing after
the segment, the scanner returns it unchanged. -/
theorem go_eq_self (pat rep s : List Char) (h : scanBlocked pat s = true) :
    replaceAllGo pat rep 0 s = s := by
  have := go_glide pat rep s [] h
  simpa [replaceAllGo] using this

theorem isPrefixOf_self_append : ∀ (l b : List Char), l.isPrefixOf (l ++ b) = true
  | [], b => by simp [List.isPrefixOf]
  | c :: l, b => by
    simp only [List.cons_append, List.isPrefixOf, BEq.refl, Bool.true_and]
    exact isPrefixOf_self_append l b

theorem go_skip_append (pat rep : List Char) :
    ∀ (x b : List Char), replaceAllGo pat rep x.length (x ++ b) = replaceAllGo pat rep 0 b
  | [], _ => rfl
  | c :: x, b => by
    simp only [List.length_cons, List.cons_append, replaceAllGo]
    exact go_skip_append pat rep x b

/-- When the remaining input starts with the (nonempty) pattern itself,
the scanner emits the replacement and resumes right after the match. -/
theorem go_match (pat rep b : List Char) (hpat : pat ≠ []) :
    replaceAllGo pat rep 0 (pat ++ b) = rep ++ replaceAllGo pat rep 0 b := by
  cases pat with
  | nil => exact absurd rfl hpat
  | cons q qs =>
    simp only [List.cons_append, replaceAllGo]
    rw [if_pos]
    · have hlen : (q :: qs).length - 1 = qs.length := by simp
      rw [hlen]
      exact congrArg (rep ++ ·) (go_skip_append (q :: qs) rep qs b)
    · have := isPrefixOf_self_append (q :: qs) b
      simp only [List.cons_append] at this
      exact this

/-- A segment whose characters all differ from the first character of
the pattern blocks the scanner. -/
theorem scanBlocked_of_free (pat : List Char) (c : Char) (hpat : pat.head? = some c) :
    ∀ (a : List Char), (∀ d ∈ a, ¬ d = c) → scanBlocked pat a = true := by
  intro a
  induction a with
  | nil => intro _; rfl
  | cons d a ih =>
    intro hfree
    have hd : ¬ d = c := hfree d (by simp)
    cases pat with
    | nil => simp at hpat
    | cons p ps =>
      have hpc : p = c := by simpa using hpat
      subst hpc
      simp only [scanBlocked, List.tails_cons, List.all_cons, Bool.and_eq_true]
      constructor
      · simp only [List.isEmpty_cons, Bool.false_or, List.isPrefixOf, Bool.and_eq_true,
          Bool.not_eq_true']
        constructor
        · apply Bool.and_eq_false_iff.mpr
          left
          exact beq_eq_false_iff_ne.mpr (fun hh => hd hh.symm)
        · apply Bool.and_eq_false_iff.mpr
          left
          exact beq_eq_false_iff_ne.mpr hd
      · exact ih (fun e he => hfree e (by simp [he]))

/-- A replacement pass whose pattern cannot match leaves the string
unchanged. -/
theorem strReplace_eq_self (s pat rep : String) (h : scanBlocked pat.data s.data = true) :
    strReplace s pat rep = s := by
  unfold strReplace
  by_cases hpat : pat.data = []
  · simp [hpat]
  · rw [if_neg hpat, go_eq_self pat.data rep.data s.data h]

/-- A run of substitution passes none of whose key tokens can match
leaves the string unchanged. -/
theorem foldl_substStep_id :
    ∀ (entries : List (String × String)) (s : String),
      ((entries.map Prod.fst).all (fun k => scanBlocked (tokenOf k).data s.data)) = true →
      entries.foldl substStep s = s
  | [], _, _ => rfl
  | kv :: entries, s, h => by
    simp only [List.map_cons, List.all_cons, Bool.and_eq_true] at h
    simp only [List.foldl_cons, substStep, strReplace_eq_self s (tokenOf kv.1) kv.2 h.1]
    exact foldl_substStep_id entries s h.2

/-- Skipping one substitution pass whose key token cannot match.  The
key and the current string are explicit so that the side condition is a
closed proposition whatever the value is. -/
theorem foldl_substStep_skip (k : String) (s : String) (v : String)
    (entries : List (String × String)) (h : scanBlocked (tokenOf k).data s.data = true) :
    ((k, v) :: entries).foldl substStep s = entries.foldl substStep s := by
  simp only [List.foldl_cons, substStep, strReplace_eq_self s (tokenOf k) v h]

/-- Evaluating the first substitution pass of a run. -/
theorem foldl_substStep_head (kv : String × String) (entries : List (String × String))
    (s s2 : String) (h : substStep s kv = s2) :
    (kv :: entries).foldl substStep s = entries.foldl substStep s2 := by
  simp only [List.foldl_cons, h]

/-- The scanner consumes an input that is exactly the pattern and emits
just the replacement. -/
theorem go_match_nil (pat rep : List Char) (hpat : pat ≠ []) :
    replaceAllGo pat rep 0 pat = rep := by
  have h2 := go_match pat rep [] hpat
  rw [List.append_nil] at h2
  simpa [replaceAllGo] using h2

/-- Unfolding strReplace for a nonempty pattern. -/
theorem strReplace_eq_go (s pat rep : String) (h : ¬ pat.data = []) :
    strReplace s pat rep = ⟨replaceAllGo pat.data rep.data 0 s.data⟩ := by
  unfold strReplace
  rw [if_neg h]

/-- For a template of the shape P, timestamp token, Q, message token
(the shape of both default templates), replacing the message token and
the timestamp token commutes, provided neither replacement value
contains a left curly brace and the concrete segments P and Q block both
scans. -/
theorem replace_commute_shape (P Q m ts : List Char)
    (hPm : scanBlocked (tokenOf "message").data P = true)
    (hPt : scanBlocked (tokenOf "timestamp").data P = true)
    (hQm : scanBlocked (tokenOf "message").data Q = true)
    (hQt : scanBlocked (tokenOf "timestamp").data Q = true)
    (hm : ∀ d ∈ m, ¬ d = lbrace) (hts : ∀ d ∈ ts, ¬ d = lbrace) :
    replaceAllGo (tokenOf "timestamp").data ts 0
        (replaceAllGo (tokenOf "message").data m 0
          (P ++ ((tokenOf "timestamp").data ++ (Q ++ (tokenOf "message").data)))) =
      replaceAllGo (tokenOf "message").data m 0
        (replaceAllGo (tokenOf "timestamp").data ts 0
          (P ++ ((tokenOf "timestamp").data ++ (Q ++ (tokenOf "message").data)))) := by
  rw [go_glide (tokenOf "message").data m P
      ((tokenOf "timestamp").data ++ (Q ++ (tokenOf "message").data)) hPm,
    go_glide (tokenOf "message").data m (tokenOf "timestamp").data
      (Q ++ (tokenOf "message").data) (by decide),
    go_glide (tokenOf "message").data m Q (tokenOf "message").data hQm,
    go_match_nil (tokenOf "message").data m (by decide)]
  rw [go_glide (tokenOf "timestamp").data ts P ((tokenOf "timestamp").data ++ (Q ++ m)) hPt,
    go_match (tokenOf "timestamp").data ts (Q ++ m) (by decide),
    go_glide (tokenOf "timestamp").data ts Q m hQt,
    go_eq_self (tokenOf "timestamp").data ts m
      (scanBlocked_of_free (tokenOf "timestamp").data lbrace (by decide) m hm)]
  rw [go_glide (tokenOf "timestamp").data ts P
      ((tokenOf "timestamp").data ++ (Q ++ (tokenOf "message").data)) hPt,
    go_match (tokenOf "timestamp").data ts (Q ++ (tokenOf "message").data) (by decide),
    go_glide (tokenOf "timestamp").data ts Q (tokenOf "message").data hQt,
    go_eq_self (tokenOf "timestamp").data ts (tokenOf "message").data (by decide)]
  rw [go_glide (tokenOf "message").data m P (ts ++ (Q ++ (tokenOf "message").data)) hPm,
    go_glide (tokenOf "message").data m ts (Q ++ (tokenOf "message").data)
      (scanBlocked_of_free (tokenOf "message").data lbrace (by decide) ts hts),
    go_glide (tokenOf "message").data m Q (tokenOf "message").data hQm,
    go_match_nil (tokenOf "message").data m (by decide)]

/-- Unfolding Formatter.format for a formatter whose two templates are
the same string, into an explicit right-nested substitution table. -/
theorem format_expand (a t : String) (out : Output) (lvl : Level) (m ts : String)
    (extra : List (String × String)) :
    (Formatter.new a a t).format out lvl m extra ts =
      (("message", m) :: ("timestamp", ts) :: (extra ++
        ("level", if consoleOutput out then coloredLevelString lvl else levelString lvl) ::
          colors)).foldl substStep a := by
  cases out <;>
    simp [Formatter.format, Formatter.argumentsList, Formatter.new, consoleOutput,
      List.append_assoc]

/-- The keys of the substitution table with no extra arguments, in table
order. -/
theorem argumentsList_keys (out : Output) (lvl : Level) (m ts : String) :
    (Formatter.argumentsList out lvl m ts []).map Prod.fst =
      ["message", "timestamp", "level", "end", "bold", "italic", "underline", "overline",
       "color.black", "color.red", "color.green", "color.yellow", "color.blue",
       "color.magenta", "color.cyan", "color.white",
       "color.bright_black", "color.bright_red", "color.bright_green", "color.bright_yellow",
       "color.bright_blue", "color.bright_magenta", "color.bright_cyan", "color.bright_white",
       "back.black", "back.red", "back.green", "back.yellow", "back.blue",
       "back.magenta", "back.cyan", "back.white",
       "back.bright_black", "back.bright_red", "back.bright_green", "back.bright_yellow",
       "back.bright_blue", "back.bright_magenta", "back.bright_cyan", "back.bright_white"] :=
  rfl

/-- The data field of an explicitly built string. -/
theorem string_data_mk (l : List Char) : (⟨l⟩ : String).data = l := rfl

/-- C1, counterexample: with both templates equal to the message token,
message A, and a caller extra argument that reuses the key message with
value B, the output is A, the value of the earlier table entry, not B,
the value of the later entry, contradicting the claim that the later
entry is the one that remains. -/
theorem c1_counterexample :
    (Formatter.new "\x7b\x7bmessage\x7d\x7d" "\x7b\x7bmessage\x7d\x7d" "%Y").format
        (Output.FILE "f") Level.DEBUG "A" [("message", "B")] "T" = "A" ∧
    ¬ ((Formatter.new "\x7b\x7bmessage\x7d\x7d" "\x7b\x7bmessage\x7d\x7d" "%Y").format
        (Output.FILE "f") Level.DEBUG "A" [("message", "B")] "T" = "B") := by
  decide

/-- C1, amended: the substitution table is built in the exact order
message, timestamp, all extra arguments in caller order, the level
entry, then the fixed palette; on a key collision the EARLIER entry of
the table is the one whose value remains in the output for a template
referencing the key once, because sequential replacement consumes the
placeholder at the first entry whose key matches. -/
theorem c1_substitution_order_earlier_wins (out : Output) (lvl : Level)
    (m ts v : String) (extra : List (String × String)) :
    (Formatter.argumentsList out lvl m ts extra =
      ("message", m) :: ("timestamp", ts) :: (extra ++
        ("level", if consoleOutput out then coloredLevelString lvl else levelString lvl) ::
          colors)) ∧
    ((Formatter.new "\x7b\x7bmessage\x7d\x7d" "\x7b\x7bmessage\x7d\x7d" "%Y").format
        out lvl "A" [("message", v)] ts = "A") ∧
    ((Formatter.new "\x7b\x7blevel\x7d\x7d" "\x7b\x7blevel\x7d\x7d" "%Y").format
        out lvl "A" [("level", "X")] ts = "X") ∧
    ((Formatter.new "\x7b\x7bk\x7d\x7d" "\x7b\x7bk\x7d\x7d" "%Y").format
        out lvl "A" [("k", "1"), ("k", "2")] ts = "1") := by
  refine ⟨?_, ?_, ?_, ?_⟩
  · simp [Formatter.argumentsList, List.append_assoc]
  · rw [format_expand]
    simp only [List.cons_append, List.nil_append]
    rw [foldl_substStep_head _ _ _ "A" (by decide)]
    rw [foldl_substStep_skip "timestamp" "A" _ _ (by decide)]
    rw [foldl_substStep_skip "message" "A" _ _ (by decide)]
    rw [foldl_substStep_skip "level" "A" _ _ (by decide)]
    exact foldl_substStep_id colors "A" (by decide)
  · rw [format_expand]
    simp only [List.cons_append, List.nil_append]
    rw [foldl_substStep_skip "message" "\x7b\x7blevel\x7d\x7d" _ _ (by decide)]
    rw [foldl_substStep_skip "timestamp" "\x7b\x7blevel\x7d\x7d" _ _ (by decide)]
    rw [foldl_substStep_head _ _ _ "X" (by decide)]
    rw [foldl_substStep_skip "level" "X" _ _ (by decide)]
    exact foldl_substStep_id colors "X" (by decide)
  · rw [format_expand]
    simp only [List.cons_append, List.nil_append]
    rw [foldl_substStep_skip "message" "\x7b\x7bk\x7d\x7d" _ _ (by decide)]
    rw [foldl_substStep_skip "timestamp" "\x7b\x7bk\x7d\x7d" _ _ (by decide)]
    rw [foldl_substStep_head _ _ _ "1" (by decide)]
    rw [foldl_substStep_skip "k" "1" _ _ (by decide)]
    rw [foldl_substStep_skip "level" "1" _ _ (by decide)]
    exact foldl_substStep_id colors "1" (by decide)

/-- C2, counterexample: with both templates equal to the message token
and a message that is itself the color.red token, a file sink, level
DEBUG and no extra arguments, the output is the ANSI red escape, not the
verbatim token: the text inserted for the message key IS re-scanned and
expanded by the later palette pass, contradicting the claim. -/
theorem c2_counterexample :
    (Formatter.new "\x7b\x7bmessage\x7d\x7d" "\x7b\x7bmessage\x7d\x7d" "%Y").format
        (Output.FILE "f") Level.DEBUG "\x7b\x7bcolor.red\x7d\x7d" [] "T" = "\x1b[31m" ∧
    ¬ ((Formatter.new "\x7b\x7bmessage\x7d\x7d" "\x7b\x7bmessage\x7d\x7d" "%Y").format
        (Output.FILE "f") Level.DEBUG "\x7b\x7bcolor.red\x7d\x7d" [] "T" =
          "\x7b\x7bcolor.red\x7d\x7d") := by
  decide

/-- C2, amended: each key is replaced in a single pass in table order,
and the message is inserted as a value in the sense that keys at or
before its own table position never re-expand inserted text; but text
inserted by an earlier key IS re-scanned by the later passes, so a
message containing the color.red token is expanded by the later palette
pass, while an extra-argument value containing the message token stays
verbatim because the message pass has already run. -/
theorem c2_inserted_text_rescanned_by_later_keys_only (out : Output) (lvl : Level)
    (m ts : String) :
    ((Formatter.new "\x7b\x7bmessage\x7d\x7d" "\x7b\x7bmessage\x7d\x7d" "%Y").format
        out lvl "\x7b\x7bcolor.red\x7d\x7d" [] ts = "\x1b[31m") ∧
    ((Formatter.new "\x7b\x7bx\x7d\x7d" "\x7b\x7bx\x7d\x7d" "%Y").format
        out lvl m [("x", "\x7b\x7bmessage\x7d\x7d")] ts = "\x7b\x7bmessage\x7d\x7d") := by
  constructor
  · rw [format_expand]
    simp only [List.nil_append]
    rw [foldl_substStep_head _ _ _ "\x7b\x7bcolor.red\x7d\x7d" (by decide)]
    rw [foldl_substStep_skip "timestamp" "\x7b\x7bcolor.red\x7d\x7d" _ _ (by decide)]
    rw [foldl_substStep_skip "level" "\x7b\x7bcolor.red\x7d\x7d" _ _ (by decide)]
    decide
  · rw [format_expand]
    simp only [List.cons_append, List.nil_append]
    rw [foldl_substStep_skip "message" "\x7b\x7bx\x7d\x7d" _ _ (by decide)]
    rw [foldl_substStep_skip "timestamp" "\x7b\x7bx\x7d\x7d" _ _ (by decide)]
    rw [foldl_substStep_head _ _ _ "\x7b\x7bmessage\x7d\x7d" (by decide)]
    rw [foldl_substStep_skip "level" "\x7b\x7bmessage\x7d\x7d" _ _ (by decide)]
    exact foldl_substStep_id colors "\x7b\x7bmessage\x7d\x7d" (by decide)

/-- C3: evaluating Logger::log on a logger whose sink list is a file
sink followed by a stdout sink, when opening the file fails: the call
panics at the unwrap of the open result inside the write call argument
(src/lib.rs line 404), before the error-reporting branch below it can
run, so no effect is performed at all and the remaining stdout sink is
never attempted, contrary to the claim. -/
theorem c3_open_failure_stops_loop :
    Logger.log (Logger.new Formatter.default [Output.FILE "f", Output.STDOUT]) "Test"
      Level.DEBUG "main.rs" [] "T" (fun _ => false) = ([], false) := by
  decide

/-- C4: evaluating the formatter with the timestamp computation at an
invalid strftime pattern: chrono panics when rendering the timestamp
(modelled as none), so format does not return a string, contrary to the
claim; the default pattern is accepted and the same call then returns a
string. -/
theorem c4_invalid_timestamp_pattern_panics :
    (Formatter.new "\x7b\x7bmessage\x7d\x7d" "\x7b\x7bmessage\x7d\x7d" "%!").formatChecked
        Output.STDOUT Level.DEBUG "Test" [] "2024-01-01 00:00:00" = none ∧
    strftimeValid "%!".data = false ∧
    strftimeValid "%Y-%m-%d %H:%M:%S".data = true ∧
    (Formatter.default.formatChecked Output.STDOUT Level.DEBUG "Test" []
        "2024-01-01 00:00:00").isSome = true := by
  decide

/-- C5, counterexample: a logger over a stdout sink with both templates
equal to the path token; the caller supplies an extra argument named
path with value fake while the call-site path is real.  The rendered
output is fake, the caller-supplied value, not the call-site path,
contradicting the claim that the real path overrides. -/
theorem c5_counterexample :
    Logger.log (Logger.new (Formatter.new "\x7b\x7bpath\x7d\x7d" "\x7b\x7bpath\x7d\x7d" "%Y")
        [Output.STDOUT]) "m" Level.DEBUG "real" [("path", "fake")] "T" (fun _ => true) =
      ([Effect.stdout "fake\n"], true) ∧ ("fake" : String) ≠ "real" := by
  decide

/-- C5, amended: Logger::log does append the pair of the key path and
the call-site path after all caller-supplied entries; but because
substitution applies entries sequentially and the first entry whose key
matches consumes the placeholder, a caller-supplied path entry wins, and
the rendered output contains the caller-supplied value, not the
call-site path. -/
theorem c5_path_appended_after_but_caller_wins (lvl : Level) (msg r ts : String)
    (openOk : String → Bool) (l : Logger) (p : String)
    (args : List (String × String)) :
    (Logger.log l msg lvl p args ts openOk =
      Logger.logRun l msg lvl (args ++ [("path", p)]) ts openOk l.writable_list) ∧
    (Logger.log (Logger.new (Formatter.new "\x7b\x7bpath\x7d\x7d" "\x7b\x7bpath\x7d\x7d" "%Y")
        [Output.STDOUT]) msg lvl r [("path", "fake")] ts openOk =
      ([Effect.stdout "fake\n"], true)) := by
  constructor
  · rfl
  · have hfmt : (Formatter.new "\x7b\x7bpath\x7d\x7d" "\x7b\x7bpath\x7d\x7d" "%Y").format
        Output.STDOUT lvl msg ([("path", "fake")] ++ [("path", r)]) ts = "fake" := by
      rw [format_expand]
      simp only [List.cons_append, List.nil_append]
      rw [foldl_substStep_skip "message" "\x7b\x7bpath\x7d\x7d" _ _ (by decide)]
      rw [foldl_substStep_skip "timestamp" "\x7b\x7bpath\x7d\x7d" _ _ (by decide)]
      rw [foldl_substStep_head _ _ _ "fake" (by decide)]
      rw [foldl_substStep_skip "path" "fake" _ _ (by decide)]
      rw [foldl_substStep_skip "level" "fake" _ _ (by decide)]
      exact foldl_substStep_id colors "fake" (by decide)
    simp only [Logger.log, Logger.logRun, Logger.new, hfmt]
    rfl

/-- C6: dispatch per sink in list order.  A stdout sink receives the
rendered text plus a trailing newline on standard output, a stderr sink
the same on standard error, and a file sink (when the open succeeds) has
the file opened in create-if-missing append mode and the rendered text
appended with no added newline; two sequential log calls to the same
single-file-sink logger leave the file holding the two rendered texts
concatenated with no separator between them. -/
theorem c6_sink_dispatch_and_file_concat (F : Formatter) (pth m m2 p p2 ts ts2 : String)
    (lvl lvl2 : Level) (args args2 : List (String × String)) (openOk : String → Bool)
    (h : openOk pth = true) :
    (Logger.log (Logger.new F [Output.STDOUT]) m lvl p args ts openOk =
      ([Effect.stdout (F.format Output.STDOUT lvl m (args ++ [("path", p)]) ts ++ "\n")],
        true)) ∧
    (Logger.log (Logger.new F [Output.STDERR]) m lvl p args ts openOk =
      ([Effect.stderr (F.format Output.STDERR lvl m (args ++ [("path", p)]) ts ++ "\n")],
        true)) ∧
    (Logger.log (Logger.new F [Output.FILE pth]) m lvl p args ts openOk =
      ([Effect.fileAppend pth (F.format (Output.FILE pth) lvl m (args ++ [("path", p)]) ts)],
        true)) ∧
    (FileSystem.applyEffects
        (FileSystem.applyEffects FileSystem.empty
          (Logger.log (Logger.new F [Output.FILE pth]) m lvl p args ts openOk).1)
        (Logger.log (Logger.new F [Output.FILE pth]) m2 lvl2 p2 args2 ts2 openOk).1 pth =
      F.format (Output.FILE pth) lvl m (args ++ [("path", p)]) ts ++
        F.format (Output.FILE pth) lvl2 m2 (args2 ++ [("path", p2)]) ts2) := by
  refine ⟨rfl, rfl, ?_, ?_⟩
  · simp [Logger.log, Logger.logRun, Logger.new, h]
  · simp only [Logger.log, Logger.logRun, Logger.new, h, if_true,
      FileSystem.applyEffects, FileSystem.applyEffect, FileSystem.empty, List.foldl_cons,
      List.foldl_nil, if_pos rfl]
    rfl

/-- Witness for C6 at a concrete logger, messages and clock values. -/
theorem c6_sink_dispatch_and_file_concat_witness :
    ((fun (_ : String) => true) "out.log" = true) ∧
    ((Logger.log (Logger.new Formatter.default [Output.STDOUT]) "a" Level.DEBUG "p1" [] "T1"
        (fun _ => true) =
      ([Effect.stdout (Formatter.default.format Output.STDOUT Level.DEBUG "a"
          ([] ++ [("path", "p1")]) "T1" ++ "\n")], true)) ∧
    (Logger.log (Logger.new Formatter.default [Output.STDERR]) "a" Level.DEBUG "p1" [] "T1"
        (fun _ => true) =
      ([Effect.stderr (Formatter.default.format Output.STDERR Level.DEBUG "a"
          ([] ++ [("path", "p1")]) "T1" ++ "\n")], true)) ∧
    (Logger.log (Logger.new Formatter.default [Output.FILE "out.log"]) "a" Level.DEBUG "p1" []
        "T1" (fun _ => true) =
      ([Effect.fileAppend "out.log" (Formatter.default.format (Output.FILE "out.log")
          Level.DEBUG "a" ([] ++ [("path", "p1")]) "T1")], true)) ∧
    (FileSystem.applyEffects
        (FileSystem.applyEffects FileSystem.empty
          (Logger.log (Logger.new Formatter.default [Output.FILE "out.log"]) "a" Level.DEBUG
            "p1" [] "T1" (fun _ => true)).1)
        (Logger.log (Logger.new Formatter.default [Output.FILE "out.log"]) "b" Level.INFO
          "p2" [] "T2" (fun _ => true)).1 "out.log" =
      Formatter.default.format (Output.FILE "out.log") Level.DEBUG "a"
          ([] ++ [("path", "p1")]) "T1" ++
        Formatter.default.format (Output.FILE "out.log") Level.INFO "b"
          ([] ++ [("path", "p2")]) "T2")) :=
  ⟨rfl, c6_sink_dispatch_and_file_concat Formatter.default "out.log" "a" "b" "p1" "p2"
    "T1" "T2" Level.DEBUG Level.INFO [] [] (fun _ => true) rfl⟩

/-- C7: format selects the color template exactly for console sinks
(stdout and stderr) and the plain template otherwise; the level entry it
substitutes renders, for non-console sinks, as the plain labels of the
spec, and for console sinks as the spec labels DEBUG unstyled, INFO and
MESSAGE wrapped in blue, WARNING in yellow, ERROR and FATAL in red, each
closed with the reset sequence. -/
theorem ite_same_template (a t : String) (out : Output) :
    (if consoleOutput out = true then (Formatter.new a a t).color_format_string
      else (Formatter.new a a t).format_string) = a := by
  cases out <;> rfl

theorem c7_template_selection_and_level_labels (lvl : Level) (m ts fp : String) :
    ((Formatter.new "C" "P" "%Y").format Output.STDOUT lvl m [] ts = "C") ∧
    ((Formatter.new "C" "P" "%Y").format Output.STDERR lvl m [] ts = "C") ∧
    ((Formatter.new "C" "P" "%Y").format (Output.FILE fp) lvl m [] ts = "P") ∧
    ((Formatter.new "\x7b\x7blevel\x7d\x7d" "\x7b\x7blevel\x7d\x7d" "%Y").format
        Output.STDOUT lvl m [] ts = specConsoleLabel lvl) ∧
    ((Formatter.new "\x7b\x7blevel\x7d\x7d" "\x7b\x7blevel\x7d\x7d" "%Y").format
        Output.STDERR lvl m [] ts = specConsoleLabel lvl) ∧
    ((Formatter.new "\x7b\x7blevel\x7d\x7d" "\x7b\x7blevel\x7d\x7d" "%Y").format
        (Output.FILE fp) lvl m [] ts = specPlainLabel lvl) := by
  refine ⟨?_, ?_, ?_, ?_, ?_, ?_⟩
  · unfold Formatter.format
    rw [if_pos (show consoleOutput Output.STDOUT = true from rfl)]
    exact foldl_substStep_id _ _ (by rw [argumentsList_keys]; decide)
  · unfold Formatter.format
    rw [if_pos (show consoleOutput Output.STDERR = true from rfl)]
    exact foldl_substStep_id _ _ (by rw [argumentsList_keys]; decide)
  · unfold Formatter.format
    rw [if_neg (show ¬ consoleOutput (Output.FILE fp) = true by simp [consoleOutput])]
    exact foldl_substStep_id _ _ (by rw [argumentsList_keys]; decide)
  · cases lvl <;>
      (rw [format_expand]
       simp only [List.nil_append]
       rw [foldl_substStep_skip "message" "\x7b\x7blevel\x7d\x7d" _ _ (by decide)]
       rw [foldl_substStep_skip "timestamp" "\x7b\x7blevel\x7d\x7d" _ _ (by decide)]
       decide)
  · cases lvl <;>
      (rw [format_expand]
       simp only [List.nil_append]
       rw [foldl_substStep_skip "message" "\x7b\x7blevel\x7d\x7d" _ _ (by decide)]
       rw [foldl_substStep_skip "timestamp" "\x7b\x7blevel\x7d\x7d" _ _ (by decide)]
       decide)
  · cases lvl <;>
      (rw [format_expand]
       simp only [List.nil_append]
       rw [foldl_substStep_skip "message" "\x7b\x7blevel\x7d\x7d" _ _ (by decide)]
       rw [foldl_substStep_skip "timestamp" "\x7b\x7blevel\x7d\x7d" _ _ (by decide)]
       rw [if_neg (show ¬ consoleOutput (Output.FILE fp) = true by simp [consoleOutput])]
       decide)

/-- C8: a placeholder token with no corresponding key in the table stays
verbatim: for every sink, level, message and timestamp, format on the
template consisting of the unknown_key token returns exactly that
token. -/
theorem c8_unknown_key_passes_through (out : Output) (lvl : Level) (m ts : String) :
    (Formatter.new "\x7b\x7bunknown_key\x7d\x7d" "\x7b\x7bunknown_key\x7d\x7d" "%Y").format
      out lvl m [] ts = "\x7b\x7bunknown_key\x7d\x7d" := by
  unfold Formatter.format
  rw [ite_same_template]
  exact foldl_substStep_id _ _ (by rw [argumentsList_keys]; decide)

/-- C10: the table built by Formatter::format itself has no path key:
with no extra arguments the path token stays verbatim for every sink,
level, message and timestamp; the path entry is added only by
Logger::log, whose rendering then does substitute the token. -/
theorem c10_no_path_key_in_formatter (out : Output) (lvl : Level) (m ts : String) :
    ((Formatter.new "\x7b\x7bpath\x7d\x7d" "\x7b\x7bpath\x7d\x7d" "%Y").format
        out lvl m [] ts = "\x7b\x7bpath\x7d\x7d") ∧
    (Logger.log (Logger.new (Formatter.new "\x7b\x7bpath\x7d\x7d" "\x7b\x7bpath\x7d\x7d" "%Y")
        [Output.STDOUT]) "m" Level.DEBUG "src/x.rs" [] "T" (fun _ => true) =
      ([Effect.stdout "src/x.rs\n"], true)) := by
  constructor
  · unfold Formatter.format
    rw [ite_same_template]
    exact foldl_substStep_id _ _ (by rw [argumentsList_keys]; decide)
  · decide

/-- C9, counterexample: on the template consisting of the message token,
with a message value that is itself the timestamp token and timestamp
value T, replacing message then timestamp yields T while the opposite
order yields the verbatim timestamp token: substitution is NOT
order-independent for every template, message and timestamp value. -/
theorem c9_counterexample :
    ¬ (strReplace (strReplace "\x7b\x7bmessage\x7d\x7d" (tokenOf "message")
          "\x7b\x7btimestamp\x7d\x7d") (tokenOf "timestamp") "T" =
        strReplace (strReplace "\x7b\x7bmessage\x7d\x7d" (tokenOf "timestamp") "T")
          (tokenOf "message") "\x7b\x7btimestamp\x7d\x7d") := by
  decide

/-- C9, amended: substitution of the message and timestamp keys is
order-independent on the default formatter templates whenever neither
replacement value contains a left curly brace (so that no placeholder
token can arise inside or around the inserted text): replacing the
message token then the timestamp token yields the same string as the
opposite order, on both the plain and the color default template. -/
theorem c9_message_timestamp_commute_default (m ts : String)
    (hm : lbraceFree m = true) (hts : lbraceFree ts = true) :
    (strReplace (strReplace Formatter.default.format_string (tokenOf "message") m)
        (tokenOf "timestamp") ts =
      strReplace (strReplace Formatter.default.format_string (tokenOf "timestamp") ts)
        (tokenOf "message") m) ∧
    (strReplace (strReplace Formatter.default.color_format_string (tokenOf "message") m)
        (tokenOf "timestamp") ts =
      strReplace (strReplace Formatter.default.color_format_string (tokenOf "timestamp") ts)
        (tokenOf "message") m) := by
  have hm2 : ∀ d ∈ m.data, ¬ d = lbrace := by
    intro d hd
    have := List.all_eq_true.mp hm d hd
    simpa using this
  have hts2 : ∀ d ∈ ts.data, ¬ d = lbrace := by
    intro d hd
    have := List.all_eq_true.mp hts d hd
    simpa using this
  constructor
  · rw [strReplace_eq_go Formatter.default.format_string (tokenOf "message") m (by decide)]
    rw [strReplace_eq_go Formatter.default.format_string (tokenOf "timestamp") ts (by decide)]
    rw [strReplace_eq_go _ (tokenOf "timestamp") ts (by decide)]
    rw [strReplace_eq_go _ (tokenOf "message") m (by decide)]
    rw [string_data_mk, string_data_mk]
    rw [show Formatter.default.format_string.data =
        "[".data ++ ((tokenOf "timestamp").data ++
          ("] [\x7b\x7blevel\x7d\x7d] \x7b\x7bpath\x7d\x7d: ".data ++
            (tokenOf "message").data)) from by decide]
    exact congrArg String.mk
      (replace_commute_shape "[".data "] [\x7b\x7blevel\x7d\x7d] \x7b\x7bpath\x7d\x7d: ".data
        m.data ts.data (by decide) (by decide) (by decide) (by decide) hm2 hts2)
  · rw [strReplace_eq_go Formatter.default.color_format_string (tokenOf "message") m
      (by decide)]
    rw [strReplace_eq_go Formatter.default.color_format_string (tokenOf "timestamp") ts
      (by decide)]
    rw [strReplace_eq_go _ (tokenOf "timestamp") ts (by decide)]
    rw [strReplace_eq_go _ (tokenOf "message") m (by decide)]
    rw [string_data_mk, string_data_mk]
    rw [show Formatter.default.color_format_string.data =
        "[\x7b\x7bcolor.bright_blue\x7d\x7d".data ++ ((tokenOf "timestamp").data ++
          ("\x7b\x7bend\x7d\x7d] [\x7b\x7blevel\x7d\x7d] \x7b\x7bpath\x7d\x7d: ".data ++
            (tokenOf "message").data)) from by decide]
    exact congrArg String.mk
      (replace_commute_shape "[\x7b\x7bcolor.bright_blue\x7d\x7d".data
        "\x7b\x7bend\x7d\x7d] [\x7b\x7blevel\x7d\x7d] \x7b\x7bpath\x7d\x7d: ".data
        m.data ts.data (by decide) (by decide) (by decide) (by decide) hm2 hts2)

/-- Witness for C9 at concrete brace-free values. -/
theorem c9_message_timestamp_commute_default_witness :
    (lbraceFree "hello" = true ∧ lbraceFree "2024-01-01 00:00:00" = true) ∧
    ((strReplace (strReplace Formatter.default.format_string (tokenOf "message") "hello")
        (tokenOf "timestamp") "2024-01-01 00:00:00" =
      strReplace (strReplace Formatter.default.format_string (tokenOf "timestamp")
        "2024-01-01 00:00:00") (tokenOf "message") "hello") ∧
    (strReplace (strReplace Formatter.default.color_format_string (tokenOf "message") "hello")
        (tokenOf "timestamp") "2024-01-01 00:00:00" =
      strReplace (strReplace Formatter.default.color_format_string (tokenOf "timestamp")
        "2024-01-01 00:00:00") (tokenOf "message") "hello")) :=
  ⟨⟨by decide, by decide⟩,
    c9_message_timestamp_commute_default "hello" "2024-01-01 00:00:00" (by decide) (by decide)⟩
